import Mathlib

/-!
# Verification of the adaptive-agent layer of the recipe-book application

This file is a shallow embedding, in Lean 4, of the parts of the
`ai-for-accessibility` repository that the specification's testable
properties talk about:

* the shared state store (`state/state.ts`): `getState` / `updateState`
  and its change-detection rule;
* the Gemini model-session client (`gemini/geminiClient.ts`):
  `sendMessage`, `processApiResponse` and `handleFunctionCalls`,
  modelled against a scripted sequence of model responses;
* the tool dispatcher (`config/tools.ts`): the nine declared tools and
  the `handleToolCall` switch, over an explicit application-state record;
* the speech-to-text service (`speechToTextService.ts`): its
  listening/transcript state machine and its recognition event handlers;
* the text-to-speech service (`textToSpeechService.ts`):
  `splitByPunctuation` (a faithful executable model of the fixed regular
  expression it compiles) and the chunked `speak` loop;
* the agent orchestrator (`agent.ts`): the enable/disable toggle handler.

JavaScript values are embedded as follows: machine numbers that the code
uses only as integral ids stay `Nat`/`Int`/`Rat`; object references are
`Option Nat` (reference identity by id, `none` = `null`); strings are
`String`; loosely-typed JSON data is the `Json` inductive below; a
fallible computation returns `Except`.  Fields absent from a partial
state object are `none`.
-/

namespace RecipeAgent

/-! ## JSON values (loosely-typed JavaScript data) -/

/-- A JavaScript value as exchanged with tools and the model: `null`,
string, number, boolean, array or plain object.  Numbers are embedded as
rationals (every numeric literal the code manipulates is exact in ℚ). -/
inductive Json where
  | null : Json
  | str (s : String) : Json
  | num (q : Rat) : Json
  | bool (b : Bool) : Json
  | arr (elems : List Json) : Json
  | obj (fields : List (String × Json)) : Json

/-- Whether a JSON value is an object (`{...}`), as opposed to a bare
primitive or array. -/
def Json.isObj : Json → Bool
  | .obj _ => true
  | _ => false

/-! ## Shared state store (`src/recipe-book-app/src/adaptiveAgent/state/state.ts`)

`State` has nine fields.  The three object-reference fields
(`geminiClient`, `agentButtonElement`, `micButtonElement`) are embedded
as `Option Nat`: the `Nat` is the object's reference identity, so
JavaScript `!==` on them is inequality of the options.  `lastError` is
`Option String` (`none` = `null`); `!==` on strings is value inequality,
as in JavaScript. -/

/-- The shape of the shared application state (interface `State`). -/
structure AgentState where
  isSupported : Bool
  isAgentEnabled : Bool
  isMicOpen : Bool
  isAgentSpeaking : Bool
  isAgentThinking : Bool
  geminiClient : Option Nat
  agentButtonElement : Option Nat
  micButtonElement : Option Nat
  lastError : Option String
deriving DecidableEq, Repr

/-- The initial default state (`_defaultState`). -/
def defaultState : AgentState :=
  { isSupported := false
    isAgentEnabled := false
    isMicOpen := false
    isAgentSpeaking := false
    isAgentThinking := false
    geminiClient := none
    agentButtonElement := none
    micButtonElement := none
    lastError := none }

/-- A `Partial<State>`: each field is present (`some v`) or absent
(`none`). -/
structure StatePartial where
  isSupported : Option Bool := none
  isAgentEnabled : Option Bool := none
  isMicOpen : Option Bool := none
  isAgentSpeaking : Option Bool := none
  isAgentThinking : Option Bool := none
  geminiClient : Option (Option Nat) := none
  agentButtonElement : Option (Option Nat) := none
  micButtonElement : Option (Option Nat) := none
  lastError : Option (Option String) := none
deriving DecidableEq, Repr

/-- The empty partial `{}`. -/
def emptyPartial : StatePartial := {}

/-- The object spread `{ ..._state, ...updates }`: each field takes the
update's value when the update provides one, the old value otherwise. -/
def mergeState (s : AgentState) (u : StatePartial) : AgentState :=
  { isSupported := u.isSupported.getD s.isSupported
    isAgentEnabled := u.isAgentEnabled.getD s.isAgentEnabled
    isMicOpen := u.isMicOpen.getD s.isMicOpen
    isAgentSpeaking := u.isAgentSpeaking.getD s.isAgentSpeaking
    isAgentThinking := u.isAgentThinking.getD s.isAgentThinking
    geminiClient := u.geminiClient.getD s.geminiClient
    agentButtonElement := u.agentButtonElement.getD s.agentButtonElement
    micButtonElement := u.micButtonElement.getD s.micButtonElement
    lastError := u.lastError.getD s.lastError }

/-- One provided field's change test from `updateState`'s loop: for a key
present in `updates`, `previousState[key] !== _state[key]`; keys not in
`updates` are not visited by the loop. -/
def fieldChanged {α : Type} [DecidableEq α] (upd : Option α) (prev : α) : Bool :=
  match upd with
  | some v => decide (v ≠ prev)
  | none => false

/-- The `hasChanged` computation of `updateState`: true iff some field
provided by `updates` differs, after the merge, from its previous
value. -/
def hasChanged (s : AgentState) (u : StatePartial) : Bool :=
  fieldChanged u.isSupported s.isSupported ||
  fieldChanged u.isAgentEnabled s.isAgentEnabled ||
  fieldChanged u.isMicOpen s.isMicOpen ||
  fieldChanged u.isAgentSpeaking s.isAgentSpeaking ||
  fieldChanged u.isAgentThinking s.isAgentThinking ||
  fieldChanged u.geminiClient s.geminiClient ||
  fieldChanged u.agentButtonElement s.agentButtonElement ||
  fieldChanged u.micButtonElement s.micButtonElement ||
  fieldChanged u.lastError s.lastError

/-- `updateState(updates)`: merges the partial into the current state and
reports whether the `stateChanged` notification is emitted. -/
def updateState (s : AgentState) (u : StatePartial) : AgentState × Bool :=
  (mergeState s u, hasChanged s u)

/-- `getState()`: a read-only shallow copy of the current state (the copy
of a record is the record itself in the embedding). -/
def getState (s : AgentState) : AgentState := s

/-- Running a sequence of `updateState` calls from a given state. -/
def applyUpdates (s : AgentState) (us : List StatePartial) : AgentState :=
  us.foldl (fun t u => (updateState t u).1) s

/-- Last-write-wins for one field of two partials. -/
def lastWrite {α : Type} (older newer : Option α) : Option α :=
  match newer with
  | some v => some v
  | none => older

/-- Last-write-wins shallow combination of two partials (the later one
wins on every field it provides).  This is the specification's notion of
combining the provided partials, stated independently of `updateState`. -/
def combinePartials (older newer : StatePartial) : StatePartial :=
  { isSupported := lastWrite older.isSupported newer.isSupported
    isAgentEnabled := lastWrite older.isAgentEnabled newer.isAgentEnabled
    isMicOpen := lastWrite older.isMicOpen newer.isMicOpen
    isAgentSpeaking := lastWrite older.isAgentSpeaking newer.isAgentSpeaking
    isAgentThinking := lastWrite older.isAgentThinking newer.isAgentThinking
    geminiClient := lastWrite older.geminiClient newer.geminiClient
    agentButtonElement := lastWrite older.agentButtonElement newer.agentButtonElement
    micButtonElement := lastWrite older.micButtonElement newer.micButtonElement
    lastError := lastWrite older.lastError newer.lastError }

/-- The last-write-wins combination of a whole sequence of partials. -/
def combineAll (us : List StatePartial) : StatePartial :=
  us.foldl combinePartials emptyPartial

theorem lastWrite_getD {α : Type} (older newer : Option α) (d : α) :
    (lastWrite older newer).getD d = newer.getD (older.getD d) := by
  cases newer <;> rfl

theorem mergeState_mergeState (s : AgentState) (a u : StatePartial) :
    mergeState (mergeState s a) u = mergeState s (combinePartials a u) := by
  simp only [mergeState, combinePartials, AgentState.mk.injEq]
  refine ⟨?_, ?_, ?_, ?_, ?_, ?_, ?_, ?_, ?_⟩ <;>
    exact (lastWrite_getD _ _ _).symm

theorem mergeState_empty (s : AgentState) : mergeState s emptyPartial = s := rfl

theorem applyUpdates_eq_merge_combine (us : List StatePartial) :
    ∀ (s : AgentState) (acc : StatePartial),
      applyUpdates (mergeState s acc) us = mergeState s (us.foldl combinePartials acc) := by
  induction us with
  | nil => intro s acc; rfl
  | cons u us ih =>
    intro s acc
    show applyUpdates (mergeState (mergeState s acc) u) us = _
    rw [mergeState_mergeState, ih s (combinePartials acc u)]
    rfl

end RecipeAgent

/-- C3: for every finite sequence of `updateState(partial)` calls starting
from the initial default state, `getState()` afterwards equals the
last-write-wins shallow merge of all the provided partials, applied in
order over the defaults. -/
theorem c3_updateState_sequence_is_lastWriteWins_merge
    (us : List RecipeAgent.StatePartial) :
    RecipeAgent.getState (RecipeAgent.applyUpdates RecipeAgent.defaultState us) =
      RecipeAgent.mergeState RecipeAgent.defaultState (RecipeAgent.combineAll us) := by
  have h := RecipeAgent.applyUpdates_eq_merge_combine us RecipeAgent.defaultState
      RecipeAgent.emptyPartial
  rw [RecipeAgent.mergeState_empty] at h
  exact h

namespace RecipeAgent

theorem fieldChanged_false_iff {α : Type} [DecidableEq α]
    (upd : Option α) (prev : α) :
    fieldChanged upd prev = false ↔ upd.getD prev = prev := by
  cases upd with
  | none => simp [fieldChanged]
  | some v => simp [fieldChanged]

theorem hasChanged_false_iff (s : AgentState) (u : StatePartial) :
    hasChanged s u = false ↔ mergeState s u = s := by
  obtain ⟨f1, f2, f3, f4, f5, f6, f7, f8, f9⟩ := s
  simp only [hasChanged, mergeState, Bool.or_eq_false_iff, AgentState.mk.injEq,
    fieldChanged_false_iff]
  tauto

end RecipeAgent

/-- C4: an `updateState(partial)` call notifies subscribers if and only if
at least one field's post-merge value differs (by value/reference
inequality) from its pre-merge value; in particular `updateState({})`
never notifies. -/
theorem c4_notify_iff_some_field_changed
    (s : RecipeAgent.AgentState) (u : RecipeAgent.StatePartial) :
    ((RecipeAgent.updateState s u).2 = true ↔ RecipeAgent.mergeState s u ≠ s) ∧
      (RecipeAgent.updateState s RecipeAgent.emptyPartial).2 = false := by
  constructor
  · show RecipeAgent.hasChanged s u = true ↔ _
    rcases hb : RecipeAgent.hasChanged s u with _ | _
    · simp only [Bool.false_eq_true, false_iff, ne_eq, not_not]
      exact (RecipeAgent.hasChanged_false_iff s u).mp hb
    · simp only [true_iff, ne_eq]
      intro hmerge
      have : RecipeAgent.hasChanged s u = false :=
        (RecipeAgent.hasChanged_false_iff s u).mpr hmerge
      rw [this] at hb
      exact Bool.false_ne_true hb
  · rfl

namespace RecipeAgent

/-! ## Model session client (`src/recipe-book-app/src/adaptiveAgent/gemini/geminiClient.ts`)

One conversational turn is driven against a *script*: the finite list of
responses the model returns to the successive `chat.sendMessage` calls of
the turn.  An exhausted script stands for a transport failure (the
`await this.chat.sendMessage(...)` rejecting), which is caught by
`sendMessage`'s catch block. -/

/-- A tool invocation requested by the model (`FunctionCall`). -/
structure FunctionCall where
  name : String
  args : Json

/-- One model response: the batch of requested tool calls (possibly
empty) and the response text. -/
structure  ModelResponse where
  functionCalls : List FunctionCall
  text : String

/-- A `functionResponse` part sent back to the model for one tool call. -/
structure FunctionResponsePart where
  name : String
  response : Json

/-- The injected tool dispatcher
(`config.toolsConfig.handleToolCall`): resolves with a JSON-embeddable
value or rejects with an error message. -/
def ToolHandler : Type := String → Json → Except String Json

/-- The events a `GeminiClient` emits (type `GeminiClientEvent`;
`responseComplete` carries `{text, error?}`, flattened here to the text
and an error flag). -/
inductive GEvent where
  | thinking
  | responseComplete (text : Option String) (isError : Bool)
  | functionCallRequested (calls : List FunctionCall)
  | functionCallCompleted (name : String)
  | errorEvent (msg : String)

/-- Dispatch of one call of a batch (the body of the
`functionCalls.map` passed to `Promise.all` in `handleFunctionCalls`):
a resolved tool result is wrapped in the `{result: ...}` envelope, a
rejected one in the `{error: ...}` envelope. -/
def mkResponsePart (handler : ToolHandler) (fc : FunctionCall) :
    FunctionResponsePart :=
  match handler fc.name fc.args with
  | .ok toolResult =>
      { name := fc.name, response := Json.obj [("result", toolResult)] }
  | .error e =>
      { name := fc.name,
        response := Json.obj
          [("error", Json.str ("Failed to execute tool: " ++ e))] }

/-- The event emitted while settling one call of a batch:
`functionCallCompleted` on success, `error` on rejection. -/
def dispatchEvent (handler : ToolHandler) (fc : FunctionCall) : GEvent :=
  match handler fc.name fc.args with
  | .ok _ => .functionCallCompleted fc.name
  | .error _ => .errorEvent ("Error executing tool " ++ fc.name)

/-- The `functionResponseParts` accumulated for a whole batch: one part
per requested call, each depending only on its own call's dispatch. -/
def dispatchParts (handler : ToolHandler) (calls : List FunctionCall) :
    List FunctionResponsePart :=
  calls.map (mkResponsePart handler)

/-- The events emitted while settling a whole batch. -/
def dispatchEvents (handler : ToolHandler) (calls : List FunctionCall) :
    List GEvent :=
  calls.map (dispatchEvent handler)

/-- `processApiResponse` (mutually with `handleFunctionCalls`): given the
current response and the script of later responses, returns the emitted
events, the dispatch batches executed, and whether the turn aborted with
a thrown transport error (script exhausted when `handleFunctionCalls`
sends the batch results back). -/
def processApiResponse (handler : ToolHandler) :
    ModelResponse → List ModelResponse →
      List GEvent × List (List FunctionResponsePart) × Bool
  | resp, script =>
    if resp.functionCalls.isEmpty then
      ([.responseComplete (some resp.text) false], [], false)
    else
      let batchEvents := GEvent.functionCallRequested resp.functionCalls ::
        dispatchEvents handler resp.functionCalls
      let parts := dispatchParts handler resp.functionCalls
      match script with
      | [] => (batchEvents, [parts], true)
      | next :: rest =>
        (batchEvents ++ (processApiResponse handler next rest).1,
         parts :: (processApiResponse handler next rest).2.1,
         (processApiResponse handler next rest).2.2)

/-- `sendMessage(userInput)` on a client whose chat session is
`initialized` (or not), against the given response script: the full event
trace of the turn and the dispatch batches executed. -/
def sendMessage (handler : ToolHandler) (initialized : Bool)
    (script : List ModelResponse) (_userInput : String) :
    List GEvent × List (List FunctionResponsePart) :=
  if !initialized then
    ([.errorEvent "Chat not initialized. Call initializeChat() first."], [])
  else
    match script with
    | [] =>
      ([.thinking, .errorEvent "Failed to get response from Gemini.",
        .responseComplete none true], [])
    | resp :: rest =>
      (.thinking :: (processApiResponse handler resp rest).1 ++
        (if (processApiResponse handler resp rest).2.2 then
          [.errorEvent "Failed to get response from Gemini.",
           .responseComplete none true]
        else []),
       (processApiResponse handler resp rest).2.1)

/-- Boolean recognizers for counting events of a trace. -/
def GEvent.isThinking : GEvent → Bool
  | .thinking => true
  | _ => false

def GEvent.isResponseComplete : GEvent → Bool
  | .responseComplete _ _ => true
  | _ => false

def GEvent.isFunctionCallRequested : GEvent → Bool
  | .functionCallRequested _ => true
  | _ => false

end RecipeAgent

namespace RecipeAgent

theorem mkResponsePart_isObj (handler : ToolHandler) (fc : FunctionCall) :
    (mkResponsePart handler fc).response.isObj = true := by
  rcases hr : handler fc.name fc.args with v | e <;>
    simp [mkResponsePart, hr, Json.isObj]

theorem dispatchParts_isObj (handler : ToolHandler) (calls : List FunctionCall) :
    ∀ part ∈ dispatchParts handler calls, part.response.isObj = true := by
  intro part hp
  rcases List.mem_map.mp hp with ⟨fc, _, hfc⟩
  rw [← hfc]
  exact mkResponsePart_isObj handler fc

theorem processApiResponse_nil (handler : ToolHandler) (resp : ModelResponse) :
    processApiResponse handler resp [] =
      if resp.functionCalls.isEmpty then
        ([.responseComplete (some resp.text) false], [], false)
      else
        (GEvent.functionCallRequested resp.functionCalls ::
           dispatchEvents handler resp.functionCalls,
         [dispatchParts handler resp.functionCalls], true) := rfl

theorem processApiResponse_cons (handler : ToolHandler) (resp : ModelResponse)
    (next : ModelResponse) (rest : List ModelResponse) :
    processApiResponse handler resp (next :: rest) =
      if resp.functionCalls.isEmpty then
        ([.responseComplete (some resp.text) false], [], false)
      else
        ((GEvent.functionCallRequested resp.functionCalls ::
            dispatchEvents handler resp.functionCalls) ++
           (processApiResponse handler next rest).1,
         dispatchParts handler resp.functionCalls ::
           (processApiResponse handler next rest).2.1,
         (processApiResponse handler next rest).2.2) := rfl

theorem processApiResponse_parts_obj (handler : ToolHandler) :
    ∀ (script : List ModelResponse) (resp : ModelResponse),
      ∀ batch ∈ (processApiResponse handler resp script).2.1,
        ∀ part ∈ batch, part.response.isObj = true := by
  intro script
  induction script with
  | nil =>
    intro resp batch hb part hp
    rw [processApiResponse_nil] at hb
    rcases hc : resp.functionCalls.isEmpty <;> rw [hc] at hb
    · simp only [Bool.false_eq_true, if_false, List.mem_singleton] at hb
      exact dispatchParts_isObj handler resp.functionCalls part (hb ▸ hp)
    · simp only [if_true, List.not_mem_nil] at hb
  | cons next rest ih =>
    intro resp batch hb part hp
    rw [processApiResponse_cons] at hb
    rcases hc : resp.functionCalls.isEmpty <;> rw [hc] at hb
    · simp only [Bool.false_eq_true, if_false, List.mem_cons] at hb
      rcases hb with hb | hb
      · exact dispatchParts_isObj handler resp.functionCalls part (hb ▸ hp)
      · exact ih next batch hb part hp
    · simp only [if_true, List.not_mem_nil] at hb

end RecipeAgent

/-- C5: a `sendMessage` on an initialized session whose first model
response contains zero tool-call requests emits exactly one `thinking`
event followed by exactly one `responseComplete` event carrying that
response's text, emits no `functionCallRequested` event, and executes no
dispatch batch. -/
theorem c5_no_tool_calls_one_thinking_one_complete
    (handler : RecipeAgent.ToolHandler) (text userInput : String)
    (rest : List RecipeAgent.ModelResponse) :
    (RecipeAgent.sendMessage handler true
        ({functionCalls := [], text := text} :: rest) userInput).1 =
      [RecipeAgent.GEvent.thinking,
       RecipeAgent.GEvent.responseComplete (some text) false] ∧
    ((RecipeAgent.sendMessage handler true
        ({functionCalls := [], text := text} :: rest) userInput).1.countP
        RecipeAgent.GEvent.isThinking = 1 ∧
     (RecipeAgent.sendMessage handler true
        ({functionCalls := [], text := text} :: rest) userInput).1.countP
        RecipeAgent.GEvent.isResponseComplete = 1 ∧
     (RecipeAgent.sendMessage handler true
        ({functionCalls := [], text := text} :: rest) userInput).1.countP
        RecipeAgent.GEvent.isFunctionCallRequested = 0) ∧
    (RecipeAgent.sendMessage handler true
        ({functionCalls := [], text := text} :: rest) userInput).2 = [] := by
  cases rest <;> exact ⟨rfl, ⟨rfl, rfl, rfl⟩, rfl⟩

/-- C6: every `functionResponse` payload produced during a turn — whether
the dispatched tool resolved with a string, array, object, null, or
rejected — is a single object envelope (`{result: ...}` or
`{error: ...}`), never a bare primitive or array. -/
theorem c6_tool_results_always_object_envelope
    (handler : RecipeAgent.ToolHandler) (initialized : Bool)
    (script : List RecipeAgent.ModelResponse) (userInput : String) :
    ∀ batch ∈ (RecipeAgent.sendMessage handler initialized script userInput).2,
      ∀ part ∈ batch, part.response.isObj = true := by
  cases initialized with
  | false => intro batch hb; exact absurd hb (List.not_mem_nil _)
  | true =>
    cases script with
    | nil => intro batch hb; exact absurd hb (List.not_mem_nil _)
    | cons resp rest =>
      exact fun batch hb part hp =>
        RecipeAgent.processApiResponse_parts_obj handler rest resp batch hb part hp

/-- Witness for C6: in a concrete turn with one tool batch, the single
produced payload is an object envelope. -/
theorem c6_tool_results_always_object_envelope_witness :
    (RecipeAgent.mkResponsePart (fun _ _ => Except.ok RecipeAgent.Json.null)
        ⟨"search_recipes", RecipeAgent.Json.null⟩).response.isObj = true :=
  c6_tool_results_always_object_envelope
    (fun _ _ => Except.ok RecipeAgent.Json.null) true
    [⟨[⟨"search_recipes", RecipeAgent.Json.null⟩], "t"⟩, ⟨[], "done"⟩] "hi"
    _ (List.Mem.head _) _ (List.Mem.head _)

namespace RecipeAgent

theorem dispatchEvent_not_responseComplete (handler : ToolHandler)
    (fc : FunctionCall) :
    (dispatchEvent handler fc).isResponseComplete = false := by
  rcases hr : handler fc.name fc.args with v | e <;>
    simp [dispatchEvent, hr, GEvent.isResponseComplete]

theorem countP_responseComplete_dispatchEvents (handler : ToolHandler)
    (calls : List FunctionCall) :
    (dispatchEvents handler calls).countP GEvent.isResponseComplete = 0 := by
  refine List.countP_eq_zero.mpr ?_
  intro e he
  rcases List.mem_map.mp he with ⟨fc, _, hfc⟩
  rw [← hfc]
  simp [dispatchEvent_not_responseComplete]

end RecipeAgent

/-- C2: a `sendMessage` on an initialized session whose scripted model
responses are a batch of tool calls, a second batch of tool calls, then a
final text, executes exactly the two dispatch batches, and its event
trace is those batches' events followed by the single terminal
`responseComplete` (no `responseComplete` occurs earlier).  Moreover each
call's result slot is a function of that call's own dispatch alone — two
dispatchers agreeing on one call produce the same slot for it regardless
of siblings — a rejected dispatch fills only its own slot with the
structured `{error: ...}` payload, and a resolved one with
`{result: ...}`. -/
theorem c2_two_batches_then_single_complete_with_isolated_failures
    (handler : RecipeAgent.ToolHandler) (c1 c2 : List RecipeAgent.FunctionCall)
    (t1 t2 tf userInput : String) (h1 : c1 ≠ []) (h2 : c2 ≠ []) :
    (RecipeAgent.sendMessage handler true
        [⟨c1, t1⟩, ⟨c2, t2⟩, ⟨[], tf⟩] userInput).2 =
      [RecipeAgent.dispatchParts handler c1,
       RecipeAgent.dispatchParts handler c2] ∧
    (RecipeAgent.sendMessage handler true
        [⟨c1, t1⟩, ⟨c2, t2⟩, ⟨[], tf⟩] userInput).1 =
      (RecipeAgent.GEvent.thinking ::
        RecipeAgent.GEvent.functionCallRequested c1 ::
          RecipeAgent.dispatchEvents handler c1 ++
        RecipeAgent.GEvent.functionCallRequested c2 ::
          RecipeAgent.dispatchEvents handler c2) ++
        [RecipeAgent.GEvent.responseComplete (some tf) false] ∧
    (RecipeAgent.GEvent.thinking ::
        RecipeAgent.GEvent.functionCallRequested c1 ::
          RecipeAgent.dispatchEvents handler c1 ++
        RecipeAgent.GEvent.functionCallRequested c2 ::
          RecipeAgent.dispatchEvents handler c2).countP
        RecipeAgent.GEvent.isResponseComplete = 0 ∧
    (∀ (g g' : RecipeAgent.ToolHandler) (calls : List RecipeAgent.FunctionCall)
        (i : Nat) (fc : RecipeAgent.FunctionCall),
        calls[i]? = some fc → g fc.name fc.args = g' fc.name fc.args →
        (RecipeAgent.dispatchParts g calls)[i]? =
          (RecipeAgent.dispatchParts g' calls)[i]?) ∧
    (∀ (fc : RecipeAgent.FunctionCall) (e : String),
        handler fc.name fc.args = .error e →
        (RecipeAgent.mkResponsePart handler fc).response =
          RecipeAgent.Json.obj
            [("error", RecipeAgent.Json.str ("Failed to execute tool: " ++ e))]) ∧
    (∀ (fc : RecipeAgent.FunctionCall) (v : RecipeAgent.Json),
        handler fc.name fc.args = .ok v →
        (RecipeAgent.mkResponsePart handler fc).response =
          RecipeAgent.Json.obj [("result", v)]) := by
  rcases c1 with _ | ⟨a1, as1⟩
  · exact absurd rfl h1
  rcases c2 with _ | ⟨a2, as2⟩
  · exact absurd rfl h2
  refine ⟨rfl, ?_, ?_, ?_, ?_, ?_⟩
  · show RecipeAgent.GEvent.thinking :: _ = _
    simp only [RecipeAgent.processApiResponse_cons, RecipeAgent.processApiResponse_nil,
      List.isEmpty_cons, List.isEmpty_nil, Bool.false_eq_true, if_false, if_true]
    simp [List.append_assoc]
  · simp [List.countP_cons, RecipeAgent.countP_responseComplete_dispatchEvents,
      RecipeAgent.GEvent.isResponseComplete]
  · intro g g' calls i fc hget hagree
    unfold RecipeAgent.dispatchParts
    rw [List.getElem?_map, List.getElem?_map, hget]
    simp only [Option.map_some']
    congr 1
    unfold RecipeAgent.mkResponsePart
    rw [hagree]
  · intro fc e hr
    simp [RecipeAgent.mkResponsePart, hr]
  · intro fc v hr
    simp [RecipeAgent.mkResponsePart, hr]

/-- Witness for C2: a concrete two-batch turn in which the dispatcher
rejects exactly the call named `bad_tool`. -/
theorem c2_two_batches_then_single_complete_witness :
    (RecipeAgent.sendMessage
        (fun name _ => if name = "bad_tool" then Except.error "boom"
          else Except.ok RecipeAgent.Json.null) true
        [⟨[⟨"search_recipes", RecipeAgent.Json.null⟩,
           ⟨"bad_tool", RecipeAgent.Json.null⟩], "a"⟩,
         ⟨[⟨"go_back_to_list", RecipeAgent.Json.null⟩], "b"⟩,
         ⟨[], "done"⟩] "find pasta").2 =
      [RecipeAgent.dispatchParts
        (fun name _ => if name = "bad_tool" then Except.error "boom"
          else Except.ok RecipeAgent.Json.null)
        [⟨"search_recipes", RecipeAgent.Json.null⟩,
         ⟨"bad_tool", RecipeAgent.Json.null⟩],
       RecipeAgent.dispatchParts
        (fun name _ => if name = "bad_tool" then Except.error "boom"
          else Except.ok RecipeAgent.Json.null)
        [⟨"go_back_to_list", RecipeAgent.Json.null⟩]] :=
  (c2_two_batches_then_single_complete_with_isolated_failures
    (fun name _ => if name = "bad_tool" then Except.error "boom"
      else Except.ok RecipeAgent.Json.null)
    [⟨"search_recipes", RecipeAgent.Json.null⟩,
     ⟨"bad_tool", RecipeAgent.Json.null⟩]
    [⟨"go_back_to_list", RecipeAgent.Json.null⟩]
    "a" "b" "done" "find pasta"
    (List.cons_ne_nil _ _) (List.cons_ne_nil _ _)).1

/-- Witness for C5: a concrete no-tool-call turn. -/
theorem c5_no_tool_calls_one_thinking_one_complete_witness :
    (RecipeAgent.sendMessage (fun _ _ => Except.ok RecipeAgent.Json.null) true
        [{functionCalls := [], text := "Here you go."}] "hello").1 =
      [RecipeAgent.GEvent.thinking,
       RecipeAgent.GEvent.responseComplete (some "Here you go.") false] :=
  (c5_no_tool_calls_one_thinking_one_complete
    (fun _ _ => Except.ok RecipeAgent.Json.null) "Here you go." "hello" []).1

namespace RecipeAgent

/-! ## Speech capture (`SpeechToTextService` in the speech-to-text service file)

The service's mutable instance state and its public operations / browser
event handlers, as a state machine.  The promise returned by `stop()` is
represented by the `stopPending` flag (resolver/rejecter stored) together
with an explicit settlement outcome returned by each operation. -/

/-- JavaScript's `String.prototype.trim()`: strip leading and trailing
whitespace (character-level, so that concrete inputs evaluate inside the
kernel). -/
def jsTrim (s : String) : String :=
  String.mk (((s.data.dropWhile Char.isWhitespace).reverse.dropWhile
    Char.isWhitespace).reverse)

/-- The mutable fields of a `SpeechToTextService` instance.  `supported`
is whether `this.recognition` is non-null. -/
structure SttState where
  supported : Bool
  isListening : Bool
  finalTranscript : String
  stopPending : Bool
deriving DecidableEq, Repr

/-- A freshly constructed service in a browser with SpeechRecognition
support. -/
def sttInit : SttState :=
  { supported := true, isListening := false, finalTranscript := "",
    stopPending := false }

/-- How a call to `stop()` settles (or doesn't, yet). -/
inductive StopOutcome where
  | rejectedUnsupported
  | resolvedNow (transcript : String)
  | deferred
deriving DecidableEq, Repr

/-- `start()`: warns and does nothing when unsupported or already
listening; otherwise resets the accumulated transcript and rejects any
dangling `stop()` deferral before starting recognition (listening itself
begins when the browser fires `onstart`). -/
def sttStart (s : SttState) : SttState :=
  if !s.supported then s
  else if s.isListening then s
  else { s with finalTranscript := "", stopPending := false }

/-- The browser's `onstart` callback (`_onStart`). -/
def sttOnStart (s : SttState) : SttState :=
  { s with isListening := true }

/-- `stop()`: rejects when unsupported; resolves immediately with
`this.finalTranscript` (untrimmed) when not listening; otherwise stores
the deferral and asks the recognizer to stop. -/
def sttStop (s : SttState) : SttState × StopOutcome :=
  if !s.supported then (s, .rejectedUnsupported)
  else if !s.isListening then (s, .resolvedNow s.finalTranscript)
  else ({ s with stopPending := true }, .deferred)

/-- The browser's `onend` callback (`_onEnd`): leaves the listening
state and resolves a pending `stop()` deferral with the trimmed
accumulated transcript. -/
def sttOnEnd (s : SttState) : SttState × Option String :=
  if s.stopPending then
    ({ s with isListening := false, stopPending := false },
     some (jsTrim s.finalTranscript))
  else
    ({ s with isListening := false }, none)

/-- One entry of a `SpeechRecognitionEvent`'s new results: final or not,
and its transcript text. -/
structure RecognitionResult where
  isFinal : Bool
  transcript : String

/-- A JavaScript runtime exception raised inside an event handler. -/
inductive JsError where
  | typeErrorUndefinedEmit
deriving DecidableEq, Repr

/-- The service's `events` member.  Its declaration is commented out in
the source (`// public events = new EventEmitter(); // Example`), so the
instance has no such property and `this.events` is `undefined`. -/
def sttEventsMember : Option Nat := none

/-- Evaluation of `this.events.emit(...)`: a member call on `undefined`
throws a TypeError. -/
def sttEmit (eventsMember : Option Nat) (_eventName _payload : String) :
    Except JsError Unit :=
  match eventsMember with
  | none => .error .typeErrorUndefinedEmit
  | some _ => .ok ()

/-- The `_onResult` handler: every finalized fragment is trimmed and
appended to the accumulated transcript with a trailing space, every
non-final fragment is concatenated into the local `interim` string; the
handler then evaluates `this.events.emit('interimResult', interim)`.
The state mutations precede the emit, so they persist even when the emit
throws.  Returns the updated state, the interim string that the emit was
given, and the emit's outcome. -/
def sttOnResult (s : SttState) (results : List RecognitionResult) :
    SttState × String × Except JsError Unit :=
  let folded := results.foldl
    (fun (acc : String × String) r =>
      if r.isFinal then (acc.1 ++ jsTrim r.transcript ++ " ", acc.2)
      else (acc.1, acc.2 ++ r.transcript))
    (s.finalTranscript, "")
  ({ s with finalTranscript := folded.1 },
   folded.2,
   sttEmit sttEventsMember "interimResult" folded.2)

/-- The state reached by: construct, `start()`, `onstart`, one result
event finalizing "hello", `stop()`, `onend` — a completed listening
session whose transcript was "hello". -/
def sttAfterCompletedSession : SttState :=
  (sttOnEnd (sttStop (sttOnResult (sttOnStart (sttStart sttInit))
      [{ isFinal := true, transcript := "hello" }]).1).1).1

end RecipeAgent

/-- C7 counterexample: after a completed listening session that heard
"hello", the service is not listening, yet `stop()` resolves immediately
with the non-empty accumulated transcript `"hello "` — not with an empty
transcript as the claim states. -/
theorem c7_counterexample_stop_returns_previous_transcript :
    (RecipeAgent.sttAfterCompletedSession.isListening = false ∧
     (RecipeAgent.sttStop RecipeAgent.sttAfterCompletedSession).2 =
       RecipeAgent.StopOutcome.resolvedNow "hello ") ∧
    (RecipeAgent.sttStop RecipeAgent.sttAfterCompletedSession).2 ≠
      RecipeAgent.StopOutcome.resolvedNow "" := by
  refine ⟨⟨rfl, ?_⟩, ?_⟩ <;> decide

/-- C7 (amended): `stop()` called while not listening (on a supported
service) leaves the state unchanged and resolves immediately with the
currently accumulated transcript — which is empty in the initial state
and right after `start()`'s reset, but is the previous session's
(untrimmed) transcript after a completed session. -/
theorem c7_stop_not_listening_resolves_with_accumulated_transcript
    (s : RecipeAgent.SttState) (hsup : s.supported = true)
    (hnl : s.isListening = false) :
    RecipeAgent.sttStop s = (s, .resolvedNow s.finalTranscript) := by
  simp [RecipeAgent.sttStop, hsup, hnl]

/-- Witness for the amended C7, at the freshly constructed service:
there the accumulated transcript is empty. -/
theorem c7_stop_not_listening_resolves_witness :
    RecipeAgent.sttStop RecipeAgent.sttInit =
      (RecipeAgent.sttInit, .resolvedNow "") :=
  c7_stop_not_listening_resolves_with_accumulated_transcript
    RecipeAgent.sttInit rfl rfl

/-- C8 (code bug): on a result event carrying a finalized "hello" and an
interim "wor", the handler does append the trimmed final fragment (plus a
space) to the accumulated transcript and keeps the interim fragment out
of it — but it then throws a TypeError instead of completing normally,
because `this.events` is `undefined` (the `events` member's declaration
is commented out in the source), so the interim fragment is never
surfaced as an event. -/
theorem c8_result_handler_throws_on_undefined_events_member :
    (RecipeAgent.sttOnResult (RecipeAgent.sttOnStart
        (RecipeAgent.sttStart RecipeAgent.sttInit))
        [{ isFinal := true, transcript := "hello" },
         { isFinal := false, transcript := "wor" }]).1.finalTranscript =
      "hello " ∧
    (RecipeAgent.sttOnResult (RecipeAgent.sttOnStart
        (RecipeAgent.sttStart RecipeAgent.sttInit))
        [{ isFinal := true, transcript := "hello" },
         { isFinal := false, transcript := "wor" }]).2 =
      ("wor", Except.error RecipeAgent.JsError.typeErrorUndefinedEmit) :=
  ⟨by decide, rfl⟩

namespace RecipeAgent

/-! ## Speech output (`TextToSpeechService` in the text-to-speech service file)

`splitByPunctuation` compiles the fixed pattern

  `([^.!?;]*([.!?;,"*]|[.!?:;,]+|(d{1,3}(?:,d{3})*(?:.d+)?))+)`

with the global flag.  The pattern is built from a plain (non-raw) string
literal, so the `d`s are literal `d` characters, not digit classes.  The
functions below implement, for this one pattern, the leftmost /
greedy-with-backtracking match semantics of a JavaScript `RegExp`:

* a match at a position is the longest extent of `[^.!?;]*` from which
  the alternation can still consume at least one unit (the star
  backtracks one character at a time);
* one alternation unit tries the ordered alternatives: a single
  character of `.!?;,"*`; else a greedy run of `.!?:;,`; else the
  literal-`d` numeric shape `d{1,3}(?:,d{3})*(?:.d+)?`;
* `(...)+` takes greedily as many units as fit (nothing follows the
  group, so no backtracking can shrink it);
* the global scan records each match and resumes after it, advancing by
  one character where no match starts. -/

/-- Characters of the negated class `[^.!?;]` (the sentence enders). -/
def isSentenceEnder (c : Char) : Bool :=
  c = '.' || c = '!' || c = '?' || c = ';'

/-- The first alternative's class `[.!?;,"*]`. -/
def isAltSingle (c : Char) : Bool :=
  c = '.' || c = '!' || c = '?' || c = ';' || c = ',' || c = '"' || c = '*'

/-- The second alternative's class `[.!?:;,]`. -/
def isAltRun (c : Char) : Bool :=
  c = '.' || c = '!' || c = '?' || c = ':' || c = ';' || c = ','

/-- Length of the longest prefix whose characters satisfy `p`. -/
def countWhile (p : Char → Bool) : List Char → Nat
  | [] => 0
  | c :: rest => if p c then countWhile p rest + 1 else 0

/-- Number of leading literal `d` characters. -/
def dCount (l : List Char) : Nat :=
  countWhile (fun c => c = 'd') l

/-- Greedy repetition count of the group `(?:,d{3})`. -/
def commaGroups : List Char → Nat
  | ',' :: 'd' :: 'd' :: 'd' :: rest => commaGroups rest + 1
  | _ => 0

/-- The optional tail `(?:.d+)?`: one arbitrary non-newline character
followed by a greedy non-empty run of `d`s, or nothing. -/
def optDotDs : List Char → Nat
  | [] => 0
  | c :: rest => if c != '\n' && dCount rest != 0 then 1 + dCount rest else 0

/-- The third alternative `d{1,3}(?:,d{3})*(?:.d+)?` at the head of `l`
(its leading `d{1,3}` is greedy and nothing after it can fail, so it
keeps `min 3` of the leading `d`s). -/
def altNumber (l : List Char) : Option Nat :=
  let t := min (dCount l) 3
  if t = 0 then none
  else
    let r1 := l.drop t
    let g := commaGroups r1
    some (t + 4 * g + optDotDs (r1.drop (4 * g)))

/-- One unit of the alternation, with ordered-alternative semantics. -/
def altUnit (l : List Char) : Option Nat :=
  match l with
  | [] => none
  | c :: _ =>
    if isAltSingle c then some 1
    else if isAltRun c then some (countWhile isAltRun l)
    else if c = 'd' then altNumber l
    else none

/-- Greedy `(...)+` over alternation units: total consumed length, with
fuel bounding the number of units (each consumes at least one
character). -/
def altPlusAux : Nat → List Char → Nat
  | 0, _ => 0
  | fuel + 1, l =>
    match altUnit l with
    | none => 0
    | some n => n + altPlusAux fuel (l.drop n)

/-- Greedy `(...)+`: `none` unless at least one unit matches. -/
def altPlus (l : List Char) : Option Nat :=
  match altUnit l with
  | none => none
  | some _ => some (altPlusAux l.length l)

/-- Backtracking of the greedy `[^.!?;]*` prefix: try keeping `k`
characters of prefix, longest first, and return the first overall match
length (prefix plus alternation units). -/
def tryPrefix (l : List Char) : Nat → Option Nat
  | 0 => altPlus l
  | k + 1 =>
    match altPlus (l.drop (k + 1)) with
    | some m => some (k + 1 + m)
    | none => tryPrefix l k

/-- Attempt of the whole pattern at the start of `l`: the length of the
match, if one starts here. -/
def matchAt (l : List Char) : Option Nat :=
  tryPrefix l (countWhile (fun c => !isSentenceEnder c) l)

/-- `text.match(regex)` with the global flag: all matches, left to
right, resuming after each match and advancing one character past
positions where none starts.  Matches are never empty, so fuel equal to
the text length suffices. -/
def scanMatches : Nat → List Char → List (List Char)
  | 0, _ => []
  | _, [] => []
  | fuel + 1, l =>
    match matchAt l with
    | some n => l.take n :: scanMatches fuel (l.drop n)
    | none => scanMatches fuel (l.drop 1)

/-- `text.replace(pat, '')` with a string pattern: remove the first
occurrence of `pat`; a text without the pattern is returned unchanged,
and an empty pattern matches at position 0 (removal is then a no-op). -/
def removeFirst (pat : List Char) : List Char → List Char
  | [] => if pat.isPrefixOf ([] : List Char) then [] else []
  | c :: rest =>
    if pat.isPrefixOf (c :: rest) then (c :: rest).drop pat.length
    else c :: removeFirst pat rest

/-- `splitByPunctuation(text)`: the regex's global matches (the chunks)
and the remainder left after deleting their concatenation from the
text. -/
def splitByPunctuation (text : String) : List String × String :=
  (((scanMatches text.data.length text.data).map String.mk),
   String.mk (removeFirst (scanMatches text.data.length text.data).flatten text.data))

/-- The chunk sequence `speak(text)` utters: every regex chunk in input
order, then — when any unmatched text remains — that remainder as one
final extra chunk. -/
def speakSequence (text : String) : List String :=
  (splitByPunctuation text).1 ++
    (if (splitByPunctuation text).2.length > 0 then [(splitByPunctuation text).2]
     else [])

end RecipeAgent

/-- C9: on the input "Boil water. Add pasta! Stir?" the splitter yields
exactly three sentence chunks, which `speak` utters strictly in input
order with an empty remainder; and for every input that leaves trailing
text not captured by the punctuation pattern, that remainder is spoken as
exactly one final extra chunk after all punctuated chunks. -/
theorem c9_chunking_three_sentences_and_trailing_remainder :
    (RecipeAgent.splitByPunctuation "Boil water. Add pasta! Stir?" =
        (["Boil water.", " Add pasta!", " Stir?"], "") ∧
      RecipeAgent.speakSequence "Boil water. Add pasta! Stir?" =
        ["Boil water.", " Add pasta!", " Stir?"]) ∧
    (∀ (text : String) (chunks : List String) (unmatched : String),
      RecipeAgent.splitByPunctuation text = (chunks, unmatched) →
      unmatched ≠ "" →
      RecipeAgent.speakSequence text = chunks ++ [unmatched]) := by
  refine ⟨⟨by decide, by decide⟩, ?_⟩
  intro text chunks unmatched hsplit hne
  unfold RecipeAgent.speakSequence
  rw [hsplit]
  obtain ⟨l⟩ := unmatched
  cases l with
  | nil => exact absurd rfl hne
  | cons c cs => simp [String.length]

/-- Witness for C9's trailing-remainder clause: "Hello" contains nothing
the punctuation pattern captures, so it is spoken as the single final
chunk. -/
theorem c9_chunking_trailing_remainder_witness :
    RecipeAgent.speakSequence "Hello" = [] ++ ["Hello"] :=
  c9_chunking_three_sentences_and_trailing_remainder.2 "Hello" [] "Hello"
    (by decide) (by decide)

namespace RecipeAgent

/-! ## Agent orchestrator (`_handleAgentToggleClick` in the agent entry file)

The enable/disable toggle handler, over the shared state store, with the
externally visible service calls recorded as an ordered event list.  The
outcome of the environment-dependent steps of one toggle attempt (API
key configured? does `new GeminiClient(config)` throw? does
`model.startChat` throw inside `initializeChat`? does the greeting
`speak` reject? is speech capture listening?) is a `ToggleScenario`.

Crucial to claim C1: `GeminiClient.initializeChat` catches a
`startChat` failure itself and only emits an `error` event (it does not
rethrow), so in the orchestrator that failure runs the subscribed
`_handleGeminiError` listener synchronously and then *returns normally*
into the `try` block, which proceeds to
`updateState({isAgentEnabled: true, geminiClient: client, lastError: null})`. -/

/-- Externally visible orchestrator actions, in call order. -/
inductive OrchEvent where
  | caption (text : String)
  | captionRemoved
  | earconEnable
  | earconDisable
  | earconError
  | stopThinkingLoop
  | stopAllSounds
  | ttsSpeak (text : String)
  | ttsStop
  | sttAbort
  | clientDestroyed
deriving DecidableEq, Repr

/-- The environment-determined outcomes of one toggle attempt. -/
structure ToggleScenario where
  apiKeyPresent : Bool
  constructorThrows : Bool
  startChatFails : Bool
  speakRejects : Bool
  clientId : Nat
  errText : String
  sttListening : Bool

/-- `_handleGeminiError(errorPayload)`: stop the thinking loop, record
the error in the shared state, play the error earcon and show the error
caption. -/
def handleGeminiError (s : AgentState) (msg : String) :
    AgentState × List OrchEvent :=
  ((updateState s { isAgentThinking := some false,
                    lastError := some (some msg) }).1,
   [.stopThinkingLoop, .earconError, .caption ("Error: " ++ msg)])

/-- `_handleAgentToggleClick()`: the enable branch (duplicated
initializing caption/earcon block included, as in the source) and the
disable branch, threaded through the shared state store. -/
def handleAgentToggleClick (sc : ToggleScenario) (s0 : AgentState) :
    AgentState × List OrchEvent :=
  if !s0.isAgentEnabled then
    let evs0 : List OrchEvent :=
      [.caption "Initializing Agent...", .earconEnable,
       .caption "Initializing Agent...", .earconEnable]
    if !sc.apiKeyPresent then
      ((updateState s0 { lastError := some (some "API Key missing.") }).1,
       evs0 ++ [.caption "Error: API Key missing", .earconError])
    else if sc.constructorThrows then
      -- `new GeminiClient(config)` throws: the catch block runs.
      let s1 := (updateState s0
        { lastError := some (some ("Gemini init failed: " ++ sc.errText)) }).1
      let s2 := (updateState s1
        { isAgentEnabled := some false, geminiClient := some none }).1
      (s2, evs0 ++ [.caption ("Error: " ++ sc.errText), .earconError])
    else
      -- Client constructed, listeners subscribed, `initializeChat()` called:
      -- a `startChat` failure only runs the `error` listener and returns.
      let chat :=
        if sc.startChatFails then
          handleGeminiError s0 "Failed to initialize chat session."
        else (s0, [])
      let s2 := (updateState chat.1
        { isAgentEnabled := some true, geminiClient := some (some sc.clientId),
          lastError := some none }).1
      if sc.speakRejects then
        -- `await ttsService.speak(greeting)` rejects inside the `try`:
        -- the catch block runs after the enabling update.
        let s3 := (updateState s2
          { lastError := some (some ("Gemini init failed: " ++ sc.errText)) }).1
        let s4 := (updateState s3
          { isAgentEnabled := some false, geminiClient := some none }).1
        (s4, evs0 ++ chat.2 ++ [.ttsSpeak "Hello! Ready to help.",
          .caption ("Error: " ++ sc.errText), .earconError])
      else
        (s2, evs0 ++ chat.2 ++ [.ttsSpeak "Hello! Ready to help."])
  else
    let s1 := (updateState s0
      { isAgentEnabled := some false, geminiClient := some none,
        isMicOpen := some false, isAgentSpeaking := some false,
        isAgentThinking := some false, lastError := some none }).1
    (s1,
     [.earconDisable, .ttsStop] ++
       (if sc.sttListening then [.sttAbort] else []) ++
       [.stopAllSounds] ++
       (if s0.geminiClient.isSome then [.clientDestroyed] else []) ++
       [.captionRemoved])

/-- The concrete session-open-failure enable attempt: API key configured,
client constructed, `startChat` throws inside `initializeChat`, greeting
speech succeeds. -/
def sessionOpenFailureScenario : ToggleScenario :=
  { apiKeyPresent := true, constructorThrows := false, startChatFails := true,
    speakRejects := false, clientId := 7, errText := "boom",
    sttListening := false }

end RecipeAgent

/-- C1 (code bug): in an enable attempt where opening the model session
fails (`startChat` throws inside `initializeChat`), the orchestrator does
surface the error (error earcon and caption are emitted by the
subscribed error listener) — but it then still enables the agent: the
attempt ends with `isAgentEnabled = true` and a non-null `geminiClient`,
contradicting the claim that the agent is left disabled with a null
client.  `initializeChat` swallows the failure and returns normally, so
the `try` block's success path runs. -/
theorem c1_session_open_failure_still_enables_agent :
    (RecipeAgent.handleAgentToggleClick RecipeAgent.sessionOpenFailureScenario
        RecipeAgent.defaultState).1.isAgentEnabled = true ∧
    (RecipeAgent.handleAgentToggleClick RecipeAgent.sessionOpenFailureScenario
        RecipeAgent.defaultState).1.geminiClient = some 7 ∧
    (RecipeAgent.handleAgentToggleClick RecipeAgent.sessionOpenFailureScenario
        RecipeAgent.defaultState).1.lastError = none ∧
    RecipeAgent.OrchEvent.earconError ∈
      (RecipeAgent.handleAgentToggleClick RecipeAgent.sessionOpenFailureScenario
        RecipeAgent.defaultState).2 ∧
    ¬((RecipeAgent.handleAgentToggleClick RecipeAgent.sessionOpenFailureScenario
        RecipeAgent.defaultState).1.isAgentEnabled = false ∧
      (RecipeAgent.handleAgentToggleClick RecipeAgent.sessionOpenFailureScenario
        RecipeAgent.defaultState).1.geminiClient = none) := by
  refine ⟨rfl, rfl, rfl, ?_, ?_⟩ <;> decide

namespace RecipeAgent

/-! ## Tool dispatcher (`src/recipe-book-app/src/adaptiveAgent/config/tools.ts`)

The nine tool implementations and the `handleToolCall` switch, over an
explicit record of the host application's state, together with the
helpers they call from `api.js`, `ui/render.js` and `state/index.js`,
and the recipe data from `data/recipes.ts`.  The `instructions` field of a recipe is read by
no embedded operation (only by the DOM-detail renderer), so the embedded
record carries the five fields the tools and the search use.  JavaScript
numbers are `Rat`; recipe ids are the numbers `1..18`. -/

/-- One recipe of `data/recipes.ts` (the fields the embedded operations
read). -/
structure Recipe where
  id : Rat
  title : String
  description : String
  ingredients : List String
  food_country : String
  keywords : List String

/-- `recipes` from `data/recipes.ts`. -/
def recipes : List Recipe :=
  [{ id := 1, title := "Classic Pancakes",
     description := "Fluffy and delicious pancakes, a breakfast favorite.",
     ingredients := ["1 1/2 cups all-purpose flour", "3 1/2 teaspoons baking powder",
       "1 teaspoon salt", "1 tablespoon white sugar", "1 1/4 cups milk", "1 egg",
       "3 tablespoons butter, melted"],
     food_country := "American",
     keywords := ["breakfast", "fluffy", "maple syrup"] },
   { id := 2, title := "Simple Tomato Pasta",
     description := "A quick and easy pasta dish with a rich tomato sauce.",
     ingredients := ["1 pound spaghetti", "2 tablespoons olive oil",
       "3 cloves garlic, minced", "1 (28 ounce) can crushed tomatoes",
       "1 teaspoon dried oregano", "Salt and pepper to taste",
       "Fresh basil for garnish"],
     food_country := "Italian",
     keywords := ["pasta", "tomato", "basil", "quick", "easy"] },
   { id := 3, title := "Chocolate Chip Cookies",
     description := "The best soft and chewy chocolate chip cookies.",
     ingredients := ["1 cup butter, softened", "1 cup white sugar",
       "1 cup packed brown sugar", "2 eggs", "2 teaspoons vanilla extract",
       "3 cups all-purpose flour", "1 teaspoon baking soda",
       "2 teaspoons hot water", "1/2 teaspoon salt",
       "2 cups semisweet chocolate chips"],
     food_country := "American",
     keywords := ["dessert", "cookies", "chocolate", "baking"] },
   { id := 4, title := "Guacamole",
     description := "A classic and creamy guacamole dip.",
     ingredients := ["3 avocados, ripe", "1 lime, juiced", "1/2 cup diced onion",
       "1/2 cup chopped cilantro", "2 roma tomatoes, diced",
       "1 teaspoon minced garlic", "1 pinch cayenne pepper"],
     food_country := "Mexican",
     keywords := ["dip", "avocado", "snack", "party"] },
   { id := 5, title := "Chicken Noodle Soup",
     description := "A comforting and hearty chicken noodle soup.",
     ingredients := ["1 tablespoon butter", "1/2 cup chopped onion",
       "1/2 cup chopped celery", "4 (14.5 ounce) cans chicken broth",
       "1 (14.5 ounce) can vegetable broth",
       "1/2 pound chopped cooked chicken breast", "1 1/2 cups egg noodles",
       "1 cup sliced carrots", "1/2 teaspoon dried basil",
       "1/2 teaspoon dried oregano", "salt and pepper to taste"],
     food_country := "American",
     keywords := ["soup", "comfort food", "winter", "cold"] },
   { id := 6, title := "Caesar Salad",
     description := "A classic Caesar salad with a creamy dressing.",
     ingredients := ["1 head romaine lettuce", "1/2 cup olive oil",
       "2 cloves garlic, minced", "1/4 cup grated Parmesan cheese",
       "1/4 cup lemon juice", "1 teaspoon Worcestershire sauce",
       "1 teaspoon Dijon mustard", "Salt and pepper to taste", "1 cup croutons"],
     food_country := "Italian-American",
     keywords := ["salad", "healthy", "light", "lunch"] },
   { id := 7, title := "Beef Tacos",
     description := "Simple and delicious ground beef tacos.",
     ingredients := ["1 pound ground beef", "1 cup chopped onion",
       "2 cloves garlic, minced", "1/4 cup water", "1 tablespoon chili powder",
       "1 teaspoon salt", "1/2 teaspoon ground cumin", "12 taco shells",
       "Toppings: shredded lettuce, diced tomatoes, shredded cheese, sour cream"],
     food_country := "Mexican",
     keywords := ["tacos", "beef", "dinner", "spicy"] },
   { id := 8, title := "Spaghetti Carbonara",
     description := "A creamy and delicious Italian pasta dish.",
     ingredients := ["1 pound spaghetti", "2 tablespoons olive oil",
       "8 ounces pancetta, diced", "4 cloves garlic, minced", "2 large eggs",
       "1 cup grated Parmesan cheese",
       "Salt and freshly ground black pepper to taste"],
     food_country := "Italian",
     keywords := ["pasta", "carbonara", "pancetta", "egg"] },
   { id := 9, title := "Classic Omelette",
     description := "A fluffy and customizable omelette.",
     ingredients := ["3 large eggs", "2 tablespoons milk",
       "Salt and pepper to taste", "1 tablespoon butter",
       "1/2 cup shredded cheese",
       "Optional fillings: diced ham, chopped bell peppers, sliced mushrooms"],
     food_country := "French",
     keywords := ["breakfast", "eggs", "cheese", "quick"] },
   { id := 10, title := "French Toast",
     description := "A breakfast classic that\u0027s quick and easy to make.",
     ingredients := ["4 slices of bread", "2 large eggs", "1/4 cup milk",
       "1/2 teaspoon ground cinnamon", "1 teaspoon vanilla extract",
       "1 tablespoon butter", "Maple syrup, for serving"],
     food_country := "French",
     keywords := ["breakfast", "eggs", "bread", "sweet"] },
   { id := 11, title := "Grilled Cheese Sandwich",
     description := "A simple and comforting grilled cheese sandwich.",
     ingredients := ["2 slices of bread", "2 slices of cheddar cheese",
       "2 tablespoons butter, softened"],
     food_country := "American",
     keywords := ["sandwich", "cheese", "lunch", "comfort food"] },
   { id := 12, title := "Homemade Lemonade",
     description := "A refreshing and tangy homemade lemonade.",
     ingredients := ["1 cup white sugar", "1 cup water", "1 cup fresh lemon juice",
       "3 cups cold water"],
     food_country := "American",
     keywords := ["drink", "lemon", "refreshing", "summer"] },
   { id := 13, title := "Fudgy Brownies",
     description := "Rich and fudgy brownies with a crinkly top.",
     ingredients := ["1/2 cup butter, melted", "1 cup white sugar", "2 large eggs",
       "1 teaspoon vanilla extract", "1/3 cup unsweetened cocoa powder",
       "1/2 cup all-purpose flour", "1/4 teaspoon salt",
       "1/4 teaspoon baking powder"],
     food_country := "American",
     keywords := ["dessert", "chocolate", "brownies", "baking"] },
   { id := 14, title := "Chicken Tikka Masala",
     description := "A creamy and flavorful curry dish, popular worldwide.",
     ingredients := ["1 lb boneless chicken, cubed", "1 cup plain yogurt",
       "1 tbsp lemon juice", "2 tsp cumin", "2 tsp paprika", "1 tsp turmeric",
       "1 onion, chopped", "3 cloves garlic, minced", "1 tbsp grated ginger",
       "1 (15 oz) can tomato sauce", "1 cup heavy cream", "1 tbsp garam masala"],
     food_country := "Indian",
     keywords := ["curry", "spicy", "chicken", "dinner"] },
   { id := 15, title := "Sweet and Sour Pork",
     description := "A classic Chinese dish with a tangy and vibrant sauce.",
     ingredients := ["1 lb pork tenderloin, cubed", "1 cup cornstarch",
       "1 egg, beaten", "1 green bell pepper, chopped",
       "1 red bell pepper, chopped", "1/2 cup pineapple chunks",
       "1/2 cup rice vinegar", "1/4 cup ketchup", "1/4 cup sugar",
       "1 tbsp soy sauce"],
     food_country := "Chinese",
     keywords := ["pork", "stir-fry", "sweet", "sour"] },
   { id := 16, title := "Swedish Meatballs",
     description := "Classic Swedish meatballs served with a rich, creamy gravy.",
     ingredients := ["1 lb ground beef", "1/2 lb ground pork", "1/2 cup breadcrumbs",
       "1/4 cup milk", "1 egg", "1 onion, finely chopped", "4 tbsp butter",
       "1/4 cup all-purpose flour", "2 cups beef broth", "1/2 cup heavy cream",
       "Salt and pepper to taste"],
     food_country := "Scandinavian",
     keywords := ["meatballs", "gravy", "comfort food", "beef"] },
   { id := 17, title := "Classic American Burger",
     description := "A juicy, all-American cheeseburger, a true classic.",
     ingredients := ["1 1/2 lbs ground beef", "4 burger buns",
       "4 slices cheddar cheese", "Lettuce leaves", "Tomato slices",
       "Red onion slices", "Pickle slices", "Ketchup and mustard",
       "Salt and pepper"],
     food_country := "American",
     keywords := ["burger", "beef", "grill", "cheeseburger"] },
   { id := 18, title := "Fish and Chips",
     description := "A quintessential British dish of battered fish and crispy fries.",
     ingredients := ["4 large potatoes, peeled and cut into thick sticks",
       "1 1/2 lbs white fish fillets (cod or haddock)", "1 cup all-purpose flour",
       "1 tsp baking powder", "1 cup beer, cold", "Vegetable oil for frying",
       "Salt and vinegar to taste"],
     food_country := "UK",
     keywords := ["fish", "chips", "seafood", "pub food"] }]

end RecipeAgent

namespace RecipeAgent

/-- `String.prototype.toLowerCase()` (character-level). -/
def jsToLower (s : String) : String :=
  String.mk (s.data.map Char.toLower)

/-- Substring containment check used for `String.prototype.includes`. -/
def containsSub : List Char → List Char → Bool
  | [], sub => sub.isEmpty
  | c :: rest, sub => sub.isPrefixOf (c :: rest) || containsSub rest sub

/-- `s.includes(sub)`. -/
def jsIncludes (s sub : String) : Bool :=
  containsSub s.data sub.data

/-- Property read `args.name` on a loosely-typed argument object
(an absent property is `undefined`, embedded as `Json.null`). -/
def jsField (args : Json) (name : String) : Json :=
  match args with
  | .obj fields => (fields.lookup name).getD Json.null
  | _ => Json.null

/-- Numeric view of a JSON value (the tools' arguments are used as
numbers where declared so; a non-number reads as 0). -/
def jsNum (j : Json) : Rat :=
  match j with
  | .num q => q
  | _ => 0

/-- String view of a JSON value. -/
def jsStr (j : Json) : String :=
  match j with
  | .str s => s
  | _ => ""

/-- Boolean view of a JSON value. -/
def jsBool (j : Json) : Bool :=
  match j with
  | .bool b => b
  | _ => false

/-- JavaScript number-to-string for the integral and simple values the
messages interpolate. -/
def jsNumToString (q : Rat) : String :=
  if q.den = 1 then toString q.num else toString q

/-- `searchRecipes(query)` from `api.js`: filter by lowercase containment
in title, description, ingredients, food country, or keywords. -/
def searchRecipes (query : String) : List Recipe :=
  let lowerCaseQuery := jsToLower query
  recipes.filter (fun recipe =>
    jsIncludes (jsToLower recipe.title) lowerCaseQuery ||
    jsIncludes (jsToLower recipe.description) lowerCaseQuery ||
    recipe.ingredients.any (fun ing => jsIncludes (jsToLower ing) lowerCaseQuery) ||
    jsIncludes (jsToLower recipe.food_country) lowerCaseQuery ||
    recipe.keywords.any (fun key => jsIncludes (jsToLower key) lowerCaseQuery))

/-- `getRecipe(recipeId)` from `api.js`. -/
def getRecipe (recipeId : Rat) : Option Recipe :=
  recipes.find? (fun r => r.id == recipeId)

/-- `addFavorite(recipeId)` from the host state module `state/index.js`:
pushes the id onto `favorites` only when it is not already included (the
`localStorage` mirror of the list is not modelled). -/
def addFavorite (favs : List Rat) (recipeId : Rat) : List Rat :=
  if recipeId ∈ favs then favs else favs ++ [recipeId]

/-- `removeFavorite(recipeId)` from `state/index.js`: filters the id out
of `favorites`. -/
def removeFavorite (favs : List Rat) (recipeId : Rat) : List Rat :=
  favs.filter (fun x => x != recipeId)

/-- `markAsFavorite(recipeId, isFavorite)` from `api.js`. -/
def markAsFavorite (favs : List Rat) (recipeId : Rat) (isFavorite : Bool) :
    List Rat :=
  if isFavorite then addFavorite favs recipeId else removeFavorite favs recipeId

/-- The host application's state/DOM that the nine tools read and write:
the cards rendered in the recipe list (`dataset.recipeId` and `h3` title
of each), the search input's value, the favorites, dark mode, the base
font size in px (`currentFontSize`, initialized to 16 in
`state/index.js`), and the currently shown detail view, if any. -/
structure AppState where
  renderedCards : List (Rat × String)
  searchInputValue : String
  favorites : List Rat
  darkMode : Bool
  fontSizePx : Int
  detailRecipe : Option Rat

/-- `renderRecipeList(recipesToRender)` from `ui/render.js`, as its
effect on the modelled card list. -/
def renderRecipeList (recipesToRender : List Recipe) : List (Rat × String) :=
  recipesToRender.map (fun r => (r.id, r.title))

/-- `setFontSizeFactor(factor)` from `api.js`: guarded to `(0, 2]`,
rounds `currentFontSize * factor` to whole pixels. -/
def setFontSizeFactor (fontSizePx : Int) (factor : Rat) : Int :=
  if 0 < factor ∧ factor ≤ 2 then round ((fontSizePx : Rat) * factor)
  else fontSizePx

/-- Tool `search_recipes`. -/
def search_recipes (args : Json) (st : AppState) : Json × AppState :=
  let query := jsStr (jsField args "query")
  let results := searchRecipes query
  (Json.str ("Searched for \"" ++ query ++ "\" and found " ++
      toString results.length ++ " recipes."),
   { st with renderedCards := renderRecipeList results,
             searchInputValue := query })

/-- Tool `view_recipe` (via `viewRecipe` in `ui/render.js`, which only
switches to the detail view when the recipe exists). -/
def view_recipe (args : Json) (st : AppState) : Json × AppState :=
  let recipeId := jsNum (jsField args "recipe_id")
  (Json.str ("Displaying details for recipe ID " ++ jsNumToString recipeId ++ "."),
   if (getRecipe recipeId).isSome then { st with detailRecipe := some recipeId }
   else st)

/-- Tool `list_recipes`: reads the rendered cards back from the DOM. -/
def list_recipes (st : AppState) : Json × AppState :=
  if st.renderedCards.isEmpty then
    (Json.str "No recipes are currently listed on the screen.", st)
  else
    (Json.arr (st.renderedCards.map (fun card =>
        Json.obj [("id", Json.num card.1), ("title", Json.str card.2)])),
     st)

/-- Tool `list_favorites`. -/
def list_favorites (st : AppState) : Json × AppState :=
  (Json.arr ((recipes.filter (fun r => st.favorites.contains r.id)).map
      (fun r => Json.obj [("id", Json.num r.id), ("title", Json.str r.title)])),
   st)

/-- Tool `get_recipe_details`: a serializable subset of the recipe. -/
def get_recipe_details (args : Json) (st : AppState) : Json × AppState :=
  let recipeId := jsNum (jsField args "recipe_id")
  match getRecipe recipeId with
  | none =>
    (Json.str ("Recipe with ID " ++ jsNumToString recipeId ++ " not found."), st)
  | some recipe =>
    (Json.obj [("title", Json.str recipe.title),
               ("description", Json.str recipe.description),
               ("ingredients", Json.arr (recipe.ingredients.map Json.str)),
               ("food_country", Json.str recipe.food_country),
               ("keywords", Json.arr (recipe.keywords.map Json.str))],
     st)

/-- Tool `mark_as_favorite`: updates the favorites, then re-renders the
list (current search results when the search input is non-empty, the
full list otherwise). -/
def mark_as_favorite (args : Json) (st : AppState) : Json × AppState :=
  let recipeId := jsNum (jsField args "recipe_id")
  let isFavorite := jsBool (jsField args "is_favorite")
  let favs := markAsFavorite st.favorites recipeId isFavorite
  let recipesToRender :=
    if st.searchInputValue != "" then searchRecipes st.searchInputValue
    else recipes
  (Json.str ("Recipe " ++ jsNumToString recipeId ++ " has been " ++
      (if isFavorite then "added to" else "removed from") ++ " favorites."),
   { st with favorites := favs, renderedCards := renderRecipeList recipesToRender })

/-- Tool `set_dark_mode` (via `setDarkMode` in `api.js`, which toggles
the theme only when it differs, so the net effect is the requested
mode). -/
def set_dark_mode (args : Json) (st : AppState) : Json × AppState :=
  let enabled := jsBool (jsField args "enabled")
  (Json.str ("Dark mode has been " ++
      (if enabled then "enabled" else "disabled") ++ "."),
   { st with darkMode := enabled })

/-- Tool `set_font_size`: rejects (with an ordinary string result)
factors outside `[0.5, 2.0]`. -/
def set_font_size (args : Json) (st : AppState) : Json × AppState :=
  let factor := jsNum (jsField args "factor")
  if factor < (1 : Rat) / 2 ∨ factor > 2 then
    (Json.str "Error: Font size factor must be between 0.5 and 2.0.", st)
  else
    (Json.str ("Font size adjusted by a factor of " ++ jsNumToString factor ++ "."),
     { st with fontSizePx := setFontSizeFactor st.fontSizePx factor })

/-- Tool `go_back_to_list` (via `showRecipeListView` in `ui/render.js`,
which also re-renders the full recipe list). -/
def go_back_to_list (st : AppState) : Json × AppState :=
  (Json.str "Returned to the main recipe list view.",
   { st with detailRecipe := none, renderedCards := renderRecipeList recipes })

/-- `handleToolCall(functionName, args)`: the switch over the nine
declared tool names; an unknown name resolves (never rejects) with the
not-available message and no effect.  The returned Except is the
promise: `.ok` = resolved. -/
def handleToolCall (functionName : String) (args : Json) (st : AppState) :
    Except JsError (Json × AppState) :=
  if functionName = "search_recipes" then .ok (search_recipes args st)
  else if functionName = "view_recipe" then .ok (view_recipe args st)
  else if functionName = "list_recipes" then .ok (list_recipes st)
  else if functionName = "list_favorites" then .ok (list_favorites st)
  else if functionName = "get_recipe_details" then .ok (get_recipe_details args st)
  else if functionName = "mark_as_favorite" then .ok (mark_as_favorite args st)
  else if functionName = "set_dark_mode" then .ok (set_dark_mode args st)
  else if functionName = "set_font_size" then .ok (set_font_size args st)
  else if functionName = "go_back_to_list" then .ok (go_back_to_list st)
  else .ok (Json.str ("Error: Tool " ++ functionName ++ " is not available."), st)

/-- The names of the nine declared tools (the `functionDeclarations`
export). -/
def functionDeclarationNames : List String :=
  ["search_recipes", "view_recipe", "list_recipes", "list_favorites",
   "get_recipe_details", "mark_as_favorite", "set_dark_mode", "set_font_size",
   "go_back_to_list"]

/-- The host application's state as first rendered (full list, empty
search, no favorites, light theme, 16px base font, list view). -/
def initialAppState : AppState :=
  { renderedCards := renderRecipeList recipes, searchInputValue := "",
    favorites := [], darkMode := false, fontSizePx := 16, detailRecipe := none }

end RecipeAgent

/-- C10: for every tool name not among the nine declared tools, the
dispatcher `handleToolCall` resolves (never rejects) with the string
"Error: Tool <name> is not available." and performs no application state
change. -/
theorem c10_unknown_tool_resolves_with_error_string_no_state_change
    (name : String) (args : RecipeAgent.Json) (st : RecipeAgent.AppState)
    (h : name ∉ RecipeAgent.functionDeclarationNames) :
    RecipeAgent.handleToolCall name args st =
      .ok (RecipeAgent.Json.str ("Error: Tool " ++ name ++ " is not available."),
        st) := by
  simp only [RecipeAgent.functionDeclarationNames, List.mem_cons,
    List.not_mem_nil, or_false, not_or] at h
  obtain ⟨h1, h2, h3, h4, h5, h6, h7, h8, h9⟩ := h
  simp [RecipeAgent.handleToolCall, h1, h2, h3, h4, h5, h6, h7, h8, h9]

/-- Witness for C10: the unknown tool name "make_coffee". -/
theorem c10_unknown_tool_resolves_witness :
    RecipeAgent.handleToolCall "make_coffee" RecipeAgent.Json.null
        RecipeAgent.initialAppState =
      .ok (RecipeAgent.Json.str "Error: Tool make_coffee is not available.",
        RecipeAgent.initialAppState) :=
  c10_unknown_tool_resolves_with_error_string_no_state_change
    "make_coffee" RecipeAgent.Json.null RecipeAgent.initialAppState (by decide)
